import Mathlib

/-!
Verification development for the Lyria music gateway (src/index.js).

The gateway is a single-process HTTP service: two near-identical routes
(POST and GET `/api/generate-music`) validate a prompt, guard on a
process-wide busy flag, and call `generateFromPrompt`, which paces calls,
invokes an external generative-model client with bounded retry and
exponential backoff plus jitter, and extracts a Base64 audio payload from
the response.

The embedding is a shallow, state-passing translation of that code:
  * timestamps are `Int` milliseconds (values of `Date.now()`),
  * the nondeterministic environment (upstream call results, the clock
    reading after each upstream call, `Math.random()` draws) is an
    explicit oracle `GenOracle`,
  * the retry loop is structural recursion on a fuel argument; the route
    code always calls it with fuel `MAX_ATTEMPTS`, which is enough since
    the loop throws at the last attempt,
  * suspensions are recorded in the result (`pacingWait`, `backoffSleeps`)
    rather than performed,
  * thrown JS errors are represented by their stringified message, as the
    code itself only ever inspects `String(err?.message || err)`.
-/

namespace Lyria

/-- Environment-derived configuration (src/index.js lines 25-28).
`baseDelayMs` is rational because it enters real-valued backoff
arithmetic before rounding. -/
structure Config where
  maxAttempts : Nat
  baseDelayMs : ℚ
  minIntervalMs : Int
  hardCooldownMs : Int

/-- Module-level mutable state of the gateway (src/index.js lines 34-36). -/
structure GatewayState where
  lastCallAtMs : Int
  lastSuccessAtMs : Int
  isGenerating : Bool
  deriving DecidableEq, Repr

/-- State at process start: `lastCallAtMs = 0`, `lastSuccessAtMs = 0`,
`isGenerating = false`. -/
def initialState : GatewayState := ⟨0, 0, false⟩

/-- One response content part. Each field models the value of the optional
chain `part?.audioData?.data` resp. `part?.inlineData?.data`: `none` when
any link of the chain is absent, `some s` when the field holds string `s`. -/
structure Part where
  audioData : Option String
  inlineData : Option String
  deriving DecidableEq, Repr

/-- JS truthiness of such a chained field value: present and non-empty. -/
def truthyStr : Option String → Bool
  | some s => s != ""
  | none => false

/-- JS `String.prototype.trim`: drop whitespace from both ends. Stated on
the character list so it evaluates by kernel reduction. -/
def jsTrim (s : String) : String :=
  ⟨((s.data.dropWhile Char.isWhitespace).reverse.dropWhile Char.isWhitespace).reverse⟩

/-- Does `needle` occur as a contiguous run inside `haystack`?
Executable model of JS `String.prototype.includes` on char lists. -/
def occursIn (needle : List Char) : List Char → Bool
  | [] => needle.isEmpty
  | c :: t => needle.isPrefixOf (c :: t) || occursIn needle t

/-- JS `s.includes(sub)`. -/
def includes (s sub : String) : Bool := occursIn sub.data s.data

/-- Retryable-error classifier (src/index.js lines 38-47): the stringified
message contains one of five case-sensitive substrings. -/
def shouldRetry (msg : String) : Bool :=
  includes msg "429" || includes msg "RESOURCE_EXHAUSTED" || includes msg "rate" ||
  includes msg "Quota" || includes msg "503"

/-- Value the part-scan loop body takes from a single part (lines 100-103):
`audioData.data` if truthy, else `inlineData.data` if truthy, else nothing. -/
def partValue (p : Part) : Option String :=
  if truthyStr p.audioData then p.audioData
  else if truthyStr p.inlineData then p.inlineData
  else none

/-- The part-scan loop (lines 99-103): the first part with a truthy data
field supplies the value; the loop breaks there. -/
def findAudio : List Part → Option String
  | [] => none
  | p :: ps =>
    match partValue p with
    | some d => some d
    | none => findAudio ps

/-- Oracle for everything the environment decides during one handler run:
`upstream k` is the outcome of the k-th `model.generateContent` call (the
part list of the response's first candidate on resolution, the stringified
error on a throw); `callEndTime k` is `Date.now()` read right after call k
resolves; `rand k` is the `Math.random()` draw after call k fails. -/
structure GenOracle where
  upstream : Nat → Except String (List Part)
  callEndTime : Nat → Int
  rand : Nat → ℚ

/-- The ±25 percent jitter factor `0.75 + random*0.5` (line 114). -/
def jitterFactor (r : ℚ) : ℚ := 3/4 + r * (1/2)

/-- Exact (pre-rounding) backoff delay `BASE_DELAY_MS * 2^(attempt-1) *
(0.75 + random*0.5)` of line 114. -/
def rawDelay (base : ℚ) (attempt : Nat) (r : ℚ) : ℚ :=
  base * 2 ^ (attempt - 1) * jitterFactor r

/-- The backoff delay of line 114. Mathlib `round` is `⌊x + 1/2⌋`, exactly
JS `Math.round` (half rounds toward positive infinity). -/
def backoffDelay (base : ℚ) (attempt : Nat) (r : ℚ) : ℤ :=
  round (rawDelay base attempt r)

/-- Outcome of `generateFromPrompt`: returned audio or thrown error. -/
inductive GenOutcome where
  | ok (audio : String)
  | err (msg : String)
  deriving DecidableEq, Repr

/-- Result of the retry loop: outcome, final module state, number of
upstream invocations made, and the backoff sleeps in order. -/
structure GenResult where
  outcome : GenOutcome
  state : GatewayState
  attempts : Nat
  sleeps : List Int
  deriving DecidableEq, Repr

/-- Body of one try block (lines 94-108): invoke the client; on
resolution stamp `lastCallAtMs = Date.now()`, `lastSuccessAtMs =
lastCallAtMs` and scan the parts, throwing `NO_AUDIO_IN_RESPONSE` when no
part supplies data; a client throw leaves the state untouched. -/
def attemptOnce (o : GenOracle) (st : GatewayState) (attempt : Nat) :
    GatewayState × Except String String :=
  match o.upstream attempt with
  | .error msg => (st, .error msg)
  | .ok parts =>
    let t := o.callEndTime attempt
    let st1 := { st with lastCallAtMs := t, lastSuccessAtMs := t }
    match findAudio parts with
    | some audio => (st1, .ok audio)
    | none => (st1, .error "NO_AUDIO_IN_RESPONSE")

/-- The `for (attempt = 1; attempt <= MAX_ATTEMPTS; attempt++)` loop of
lines 93-119, including the trailing `throw lastErr || UNKNOWN_ERROR`.
Fuel is an upper bound on remaining iterations; callers pass
`cfg.maxAttempts`, which suffices because the catch block rethrows at
`attempt === MAX_ATTEMPTS`, so at most `maxAttempts` iterations run. -/
def retryLoop (cfg : Config) (o : GenOracle) :
    Nat → Nat → GatewayState → Option String → GenResult
  | 0, _, st, lastErr => ⟨.err (lastErr.getD "UNKNOWN_ERROR"), st, 0, []⟩
  | fuel + 1, attempt, st, lastErr =>
    if cfg.maxAttempts < attempt then ⟨.err (lastErr.getD "UNKNOWN_ERROR"), st, 0, []⟩
    else
      match attemptOnce o st attempt with
      | (st1, .ok audio) => ⟨.ok audio, st1, 1, []⟩
      | (st1, .error msg) =>
        if shouldRetry msg = false ∨ attempt = cfg.maxAttempts then
          ⟨.err msg, st1, 1, []⟩
        else
          let d := backoffDelay cfg.baseDelayMs attempt (o.rand attempt)
          let r := retryLoop cfg o fuel (attempt + 1) st1 (some msg)
          ⟨r.outcome, r.state, r.attempts + 1, d :: r.sleeps⟩

/-- Result of one `generateFromPrompt` call. Beyond the loop result it
records the pacing suspension (`pacingWait`, 0 when none), the time the
first upstream attempt is dispatched, and the gateway state during the
pacing suspension (the input state: nothing is mutated before the sleep). -/
structure GenFullResult where
  outcome : GenOutcome
  state : GatewayState
  attempts : Nat
  pacingWait : Int
  dispatchTime : Int
  stateAtPacing : GatewayState
  backoffSleeps : List Int
  deriving DecidableEq, Repr

/-- `generateFromPrompt` (lines 67-120): pacing against `lastCallAtMs`
(lines 83-89), then the retry loop. `now` is `Date.now()` at entry. -/
def generateFromPrompt (cfg : Config) (o : GenOracle) (now : Int)
    (st : GatewayState) : GenFullResult :=
  let since := now - st.lastCallAtMs
  let wait : Int := if since < cfg.minIntervalMs then cfg.minIntervalMs - since else 0
  let r := retryLoop cfg o cfg.maxAttempts 1 st none
  ⟨r.outcome, r.state, r.attempts, wait, now + wait, st, r.sleeps⟩

/-- The request's prompt value as received by the route: absent, present
but not a string, or a string. -/
inductive PromptValue where
  | absent
  | nonString
  | str (s : String)
  deriving DecidableEq, Repr

/-- HTTP responses the routes produce. -/
inductive HttpResponse where
  | ok (audioData : String)
  | badRequest (error : String)
  | busy (error : String) (retryAfterMs : Int)
  | serverError (error : String) (detail : String)
  deriving DecidableEq, Repr

/-- HTTP status code of a response. -/
def statusOf : HttpResponse → Nat
  | .ok _ => 200
  | .badRequest _ => 400
  | .busy _ _ => 429
  | .serverError _ _ => 500

/-- Result of one route-handler run: the response, the gateway state when
the handler returns, and the `generateFromPrompt` result when that call
was reached (`none` means the upstream client was never invoked). -/
structure HandlerResult where
  response : HttpResponse
  state : GatewayState
  gen : Option GenFullResult
  deriving DecidableEq, Repr

/-- The `/api/generate-music` handler body (POST, lines 123-152; the GET
route at lines 155-184 is line-for-line the same logic on query instead of
body parameters). Busy gate, then prompt validation — note the JS `!prompt`
check rejects the empty string before the trimmed-emptiness check can see
it — then `isGenerating = true`, the awaited `generateFromPrompt`, and the
flag cleared on both the return and the catch path. -/
def handleGenerateMusic (cfg : Config) (o : GenOracle) (now : Int)
    (st : GatewayState) (prompt : PromptValue) : HandlerResult :=
  if st.isGenerating then
    let cooldownLeft := max 0 (cfg.hardCooldownMs - (now - st.lastSuccessAtMs))
    ⟨.busy "Server busy, try again" cooldownLeft, st, none⟩
  else
    match prompt with
    | .str s =>
      if s = "" then ⟨.badRequest "Invalid prompt", st, none⟩
      else
        let promptText := jsTrim s
        if promptText.length = 0 then ⟨.badRequest "Prompt cannot be empty", st, none⟩
        else if 500 < promptText.length then
          ⟨.badRequest "Prompt is too long (max 500 chars)", st, none⟩
        else
          let st1 := { st with isGenerating := true }
          let g := generateFromPrompt cfg o now st1
          match g.outcome with
          | .ok audio => ⟨.ok audio, { g.state with isGenerating := false }, some g⟩
          | .err msg =>
            ⟨.serverError "Failed to generate music" msg, { g.state with isGenerating := false }, some g⟩
    | _ => ⟨.badRequest "Invalid prompt", st, none⟩

/-! Concrete fixtures used by witness and counterexample theorems. -/

/-- The default configuration (env defaults of src/index.js lines 25-28):
`MAX_ATTEMPTS = 1`, `BASE_DELAY_MS = 1200`, `MIN_INTERVAL_MS = 2000`,
`HARD_COOLDOWN_MS = 7000`. -/
def cfgDefault : Config := ⟨1, 1200, 2000, 7000⟩

/-- Configuration with the retry budget raised to `MAX_ATTEMPTS = 3`. -/
def cfgAttempts3 : Config := ⟨3, 1200, 2000, 7000⟩

/-- Oracle: every upstream call resolves at time 5000 with one audio part. -/
def oSuccess : GenOracle := ⟨fun _ => .ok [⟨some "QUJD", none⟩], fun _ => 5000, fun _ => 0⟩

/-- Oracle: every upstream call throws a non-retryable 401 error. -/
def oUnauthorized : GenOracle := ⟨fun _ => .error "401 Unauthorized", fun _ => 5000, fun _ => 0⟩

/-- Oracle: every upstream call throws a retryable 503 error. -/
def oUnavailable : GenOracle :=
  ⟨fun _ => .error "503 Service Unavailable", fun _ => 5000, fun _ => 1/2⟩

/-- Oracle: every upstream call resolves at time 4000 with a part list in
which no part carries audio data. -/
def oNoAudio : GenOracle := ⟨fun _ => .ok [⟨none, none⟩], fun _ => 4000, fun _ => 0⟩

/-! Helper lemmas about the retry loop. -/

/-- Unfold one iteration of the retry loop when the loop guard passes. -/
theorem retryLoop_step (cfg : Config) (o : GenOracle) (fuel attempt : Nat)
    (st : GatewayState) (le : Option String) (hatt : attempt ≤ cfg.maxAttempts) :
    retryLoop cfg o (fuel + 1) attempt st le =
      match attemptOnce o st attempt with
      | (st1, .ok audio) => ⟨.ok audio, st1, 1, []⟩
      | (st1, .error msg) =>
        if shouldRetry msg = false ∨ attempt = cfg.maxAttempts then ⟨.err msg, st1, 1, []⟩
        else
          let d := backoffDelay cfg.baseDelayMs attempt (o.rand attempt)
          let r := retryLoop cfg o fuel (attempt + 1) st1 (some msg)
          ⟨r.outcome, r.state, r.attempts + 1, d :: r.sleeps⟩ := by
  simp only [retryLoop]
  rw [if_neg (by omega)]

/-- A run of the loop whose guard passes makes at least one upstream call. -/
theorem retryLoop_attempts_pos (cfg : Config) (o : GenOracle) (fuel attempt : Nat)
    (st : GatewayState) (le : Option String) (hf : 1 ≤ fuel)
    (hatt : attempt ≤ cfg.maxAttempts) :
    1 ≤ (retryLoop cfg o fuel attempt st le).attempts := by
  cases fuel with
  | zero => omega
  | succ f =>
    rw [retryLoop_step cfg o f attempt st le hatt]
    split
    · simp
    · split
      · simp
      · simp

/-- On a successful first attempt whose parts contain audio, the whole
generation returns that audio in one attempt and stamps both timestamps
with the clock reading after the call. -/
theorem generate_first_ok (cfg : Config) (o : GenOracle) (now : Int) (st : GatewayState)
    (parts : List Part) (audio : String) (hm : 1 ≤ cfg.maxAttempts)
    (hup : o.upstream 1 = .ok parts) (hfa : findAudio parts = some audio) :
    (generateFromPrompt cfg o now st).outcome = .ok audio
    ∧ (generateFromPrompt cfg o now st).state =
        { st with lastCallAtMs := o.callEndTime 1, lastSuccessAtMs := o.callEndTime 1 }
    ∧ (generateFromPrompt cfg o now st).attempts = 1 := by
  have ha : attemptOnce o st 1 =
      ({ st with lastCallAtMs := o.callEndTime 1, lastSuccessAtMs := o.callEndTime 1 },
        .ok audio) := by
    unfold attemptOnce
    rw [hup]
    dsimp only
    rw [hfa]
  obtain ⟨f, hf⟩ : ∃ f, cfg.maxAttempts = f + 1 := ⟨cfg.maxAttempts - 1, by omega⟩
  have hloop : retryLoop cfg o cfg.maxAttempts 1 st none =
      ⟨.ok audio, { st with lastCallAtMs := o.callEndTime 1, lastSuccessAtMs := o.callEndTime 1 }, 1, []⟩ := by
    rw [hf, retryLoop_step cfg o f 1 st none (by omega), ha]
  exact ⟨congrArg GenResult.outcome hloop, congrArg GenResult.state hloop,
    congrArg GenResult.attempts hloop⟩

/-- If every part of a list lacks truthy audio data, the scan finds none. -/
theorem findAudio_eq_none (parts : List Part) (h : ∀ q ∈ parts, partValue q = none) :
    findAudio parts = none := by
  induction parts with
  | nil => rfl
  | cons p ps ih =>
    have hp : partValue p = none := h p (List.mem_cons_self p ps)
    simp only [findAudio, hp]
    exact ih fun q hq => h q (List.mem_cons_of_mem p hq)

/-! Claim theorems. -/

/-- Claim C1: every call to the generate handler that passes the busy gate
(whatever its outcome: success, NoAudioInResponse, non-retryable upstream
error, exhausted retries, or even validation failure) leaves
`isGenerating = false` when it completes, so a single failed request can
never permanently wedge the gateway. -/
theorem generate_clears_busy_flag (cfg : Config) (o : GenOracle) (now : Int)
    (st : GatewayState) (p : PromptValue) (h : st.isGenerating = false) :
    (handleGenerateMusic cfg o now st p).state.isGenerating = false := by
  unfold handleGenerateMusic
  rw [h]
  simp only [Bool.false_eq_true, if_false]
  rcases p with _ | _ | s
  · exact h
  · exact h
  · dsimp only
    repeat' split
    all_goals first | exact h | rfl

/-- Witness for C1: a concrete non-busy run ends with the flag cleared. -/
theorem generate_clears_busy_flag_witness :
    initialState.isGenerating = false
    ∧ (handleGenerateMusic cfgDefault oSuccess 10000 initialState
        (.str "calm piano")).state.isGenerating = false :=
  ⟨rfl, generate_clears_busy_flag cfgDefault oSuccess 10000 initialState (.str "calm piano") rfl⟩

/-- Claim C7: a request arriving while `isGenerating` is true is rejected
with HTTP 429 and `retryAfterMs = max(0, HARD_COOLDOWN_MS - (now -
lastSuccessAtMs))`, which is non-negative, and the upstream client is
never invoked for it. -/
theorem busy_gate_rejects (cfg : Config) (o : GenOracle) (now : Int)
    (st : GatewayState) (p : PromptValue) (h : st.isGenerating = true) :
    (handleGenerateMusic cfg o now st p).response =
      .busy "Server busy, try again" (max 0 (cfg.hardCooldownMs - (now - st.lastSuccessAtMs)))
    ∧ statusOf (handleGenerateMusic cfg o now st p).response = 429
    ∧ 0 ≤ max (0 : Int) (cfg.hardCooldownMs - (now - st.lastSuccessAtMs))
    ∧ (handleGenerateMusic cfg o now st p).gen = none
    ∧ (handleGenerateMusic cfg o now st p).state = st := by
  unfold handleGenerateMusic
  rw [h, if_pos rfl]
  exact ⟨rfl, rfl, le_max_left 0 _, rfl, rfl⟩

/-- Witness for C7: a concrete busy-state request is rejected with 429. -/
theorem busy_gate_rejects_witness :
    (handleGenerateMusic cfgDefault oSuccess 8000 ⟨5000, 5000, true⟩
        (.str "calm piano")).response = .busy "Server busy, try again"
        (max 0 (cfgDefault.hardCooldownMs - (8000 - (5000 : Int))))
    ∧ statusOf (handleGenerateMusic cfgDefault oSuccess 8000 ⟨5000, 5000, true⟩
        (.str "calm piano")).response = 429
    ∧ (handleGenerateMusic cfgDefault oSuccess 8000 ⟨5000, 5000, true⟩
        (.str "calm piano")).gen = none := by
  have h := busy_gate_rejects cfgDefault oSuccess 8000 ⟨5000, 5000, true⟩
    (.str "calm piano") rfl
  exact ⟨h.1, h.2.1, h.2.2.2.1⟩

/-- Counterexample to claim C5 as stated: the empty-string prompt has
trimmed length 0 but is rejected by the JS falsy check with the
InvalidPrompt message, not the EmptyPrompt message. -/
theorem empty_string_gets_invalid_prompt :
    (handleGenerateMusic cfgDefault oSuccess 10000 initialState (.str "")).response =
      .badRequest "Invalid prompt"
    ∧ (handleGenerateMusic cfgDefault oSuccess 10000 initialState (.str "")).response ≠
      .badRequest "Prompt cannot be empty"
    ∧ jsTrim "" = "" := by
  exact ⟨rfl, by decide, rfl⟩

/-- Claim C5 amended: a request passing the busy gate whose prompt is a
string with trimmed length 0 is rejected with status 400 and upstream is
never invoked; a non-empty such string gets the EmptyPrompt message, while
the literal empty string is caught earlier by the falsy prompt check and
gets the InvalidPrompt message. -/
theorem trimmed_empty_rejected (cfg : Config) (o : GenOracle) (now : Int)
    (st : GatewayState) (s : String) (hb : st.isGenerating = false)
    (ht : (jsTrim s).length = 0) :
    statusOf (handleGenerateMusic cfg o now st (.str s)).response = 400
    ∧ (handleGenerateMusic cfg o now st (.str s)).gen = none
    ∧ (s ≠ "" → (handleGenerateMusic cfg o now st (.str s)).response =
        .badRequest "Prompt cannot be empty")
    ∧ (s = "" → (handleGenerateMusic cfg o now st (.str s)).response =
        .badRequest "Invalid prompt") := by
  unfold handleGenerateMusic
  rw [hb]
  simp only [Bool.false_eq_true, if_false]
  by_cases hs : s = ""
  · rw [if_pos hs]
    exact ⟨rfl, rfl, fun h => absurd hs h, fun _ => rfl⟩
  · rw [if_neg hs]
    simp only [ht, if_pos rfl]
    exact ⟨rfl, rfl, fun _ => rfl, fun h => absurd h hs⟩

/-- Witness for C5 amended: an all-whitespace prompt gets EmptyPrompt/400
with no upstream call. -/
theorem trimmed_empty_rejected_witness :
    statusOf (handleGenerateMusic cfgDefault oSuccess 10000 initialState
        (.str "   ")).response = 400
    ∧ (handleGenerateMusic cfgDefault oSuccess 10000 initialState (.str "   ")).gen = none
    ∧ (handleGenerateMusic cfgDefault oSuccess 10000 initialState (.str "   ")).response =
        .badRequest "Prompt cannot be empty" := by
  have h := trimmed_empty_rejected cfgDefault oSuccess 10000 initialState "   " rfl (by decide)
  exact ⟨h.1, h.2.1, h.2.2.1 (by decide)⟩

/-- Counterexample to claim C3 as stated: a single throwing upstream
invocation (message "401 Unauthorized", attempted at clock reading 5000)
leaves `lastCallAtMs` at its prior value 0, which differs from the time of
the attempt, so `lastCallAtMs` does not record every attempted call. -/
theorem lastCallAt_unchanged_on_throw :
    (generateFromPrompt cfgDefault oUnauthorized 10000 initialState).attempts = 1
    ∧ oUnauthorized.callEndTime 1 = 5000
    ∧ (generateFromPrompt cfgDefault oUnauthorized 10000 initialState).state.lastCallAtMs = 0
    ∧ (generateFromPrompt cfgDefault oUnauthorized 10000 initialState).state.lastCallAtMs ≠ 5000 := by
  refine ⟨rfl, rfl, rfl, ?_⟩
  decide

/-- Claim C3 amended: `lastCallAtMs` and `lastSuccessAtMs` are both set,
to the clock reading taken right after the call, exactly when an
invocation of the external client resolves successfully (even if audio
extraction then fails); an invocation that throws leaves the state
untouched. -/
theorem timestamps_on_success_only (o : GenOracle) (st : GatewayState) (k : Nat) :
    (∀ parts, o.upstream k = .ok parts →
        (attemptOnce o st k).1.lastCallAtMs = o.callEndTime k
        ∧ (attemptOnce o st k).1.lastSuccessAtMs = o.callEndTime k)
    ∧ (∀ msg, o.upstream k = .error msg → (attemptOnce o st k).1 = st)
    ∧ (∀ cfg now parts audio, 1 ≤ cfg.maxAttempts → o.upstream 1 = .ok parts →
        findAudio parts = some audio →
        (generateFromPrompt cfg o now st).state.lastCallAtMs = o.callEndTime 1
        ∧ (generateFromPrompt cfg o now st).state.lastSuccessAtMs = o.callEndTime 1)
    ∧ (∀ cfg now msg, cfg.maxAttempts = 1 → o.upstream 1 = .error msg →
        (generateFromPrompt cfg o now st).state = st) := by
  refine ⟨?_, ?_, ?_, ?_⟩
  · intro parts hup
    unfold attemptOnce
    rw [hup]
    dsimp only
    rcases hfa : findAudio parts with _ | audio
    · exact ⟨rfl, rfl⟩
    · exact ⟨rfl, rfl⟩
  · intro msg hup
    unfold attemptOnce
    rw [hup]
  · intro cfg now parts audio hm hup hfa
    have h := generate_first_ok cfg o now st parts audio hm hup hfa
    rw [h.2.1]
    exact ⟨rfl, rfl⟩
  · intro cfg now msg hm hup
    have ha : attemptOnce o st 1 = (st, .error msg) := by
      unfold attemptOnce
      rw [hup]
    have hloop : retryLoop cfg o cfg.maxAttempts 1 st none = ⟨.err msg, st, 1, []⟩ := by
      rw [hm, retryLoop_step cfg o 0 1 st none (by omega), ha]
      dsimp only
      rw [if_pos (Or.inr hm.symm)]
    exact congrArg GenResult.state hloop

/-- Witness for C3 amended: concrete success and failure invocations. -/
theorem timestamps_on_success_only_witness :
    (attemptOnce oSuccess initialState 1).1.lastCallAtMs = 5000
    ∧ (attemptOnce oUnauthorized initialState 1).1 = initialState
    ∧ (generateFromPrompt cfgDefault oUnauthorized 9999 initialState).state = initialState := by
  refine ⟨?_, ?_, ?_⟩
  · exact ((timestamps_on_success_only oSuccess initialState 1).1 [⟨some "QUJD", none⟩] rfl).1
  · exact (timestamps_on_success_only oUnauthorized initialState 1).2.1 "401 Unauthorized" rfl
  · exact (timestamps_on_success_only oUnauthorized initialState 1).2.2.2 cfgDefault 9999
      "401 Unauthorized" rfl rfl

/-- Claim C2: in the retry loop, an upstream error is retried (a further
attempt occurs) if and only if `shouldRetry` classifies it as retryable
(its message contains one of "429", "RESOURCE_EXHAUSTED", "rate", "Quota",
"503") and the failing attempt is not the last of `MAX_ATTEMPTS`;
otherwise the error propagates immediately with exactly this one attempt
made. In particular an error containing "401" matching none of the five
substrings makes the generation fail on attempt 1 even with
`MAX_ATTEMPTS = 3`. -/
theorem retry_classification (cfg : Config) (o : GenOracle) (st : GatewayState)
    (le : Option String) (fuel attempt : Nat) (msg : String)
    (hatt : attempt ≤ cfg.maxAttempts)
    (hfuel : cfg.maxAttempts + 1 ≤ fuel + attempt)
    (herr : o.upstream attempt = .error msg) :
    (2 ≤ (retryLoop cfg o fuel attempt st le).attempts ↔
        (shouldRetry msg = true ∧ attempt ≠ cfg.maxAttempts))
    ∧ (shouldRetry msg = false ∨ attempt = cfg.maxAttempts →
        (retryLoop cfg o fuel attempt st le).outcome = .err msg
        ∧ (retryLoop cfg o fuel attempt st le).attempts = 1)
    ∧ (∀ (cfg2 : Config) (o2 : GenOracle) (st2 : GatewayState) (now2 : Int) (msg2 : String),
        cfg2.maxAttempts = 3 → includes msg2 "401" = true → shouldRetry msg2 = false →
        o2.upstream 1 = .error msg2 →
        (generateFromPrompt cfg2 o2 now2 st2).outcome = .err msg2
        ∧ (generateFromPrompt cfg2 o2 now2 st2).attempts = 1) := by
  have ha : attemptOnce o st attempt = (st, .error msg) := by
    unfold attemptOnce
    rw [herr]
  obtain ⟨f, rfl⟩ : ∃ f, fuel = f + 1 := ⟨fuel - 1, by omega⟩
  have hstep := retryLoop_step cfg o f attempt st le hatt
  rw [ha] at hstep
  dsimp only at hstep
  refine ⟨?_, ?_, ?_⟩
  · by_cases hc : shouldRetry msg = false ∨ attempt = cfg.maxAttempts
    · rw [hstep, if_pos hc]
      constructor
      · intro h2
        dsimp only at h2
        omega
      · rintro ⟨hr, hne⟩
        rcases hc with hc | hc
        · rw [hr] at hc
          exact absurd hc (by simp)
        · exact absurd hc hne
    · rw [hstep, if_neg hc]
      push_neg at hc
      constructor
      · intro _
        refine ⟨?_, hc.2⟩
        cases hb : shouldRetry msg
        · exact absurd hb hc.1
        · rfl
      · intro _
        have hpos : 1 ≤ (retryLoop cfg o f (attempt + 1) st (some msg)).attempts :=
          retryLoop_attempts_pos cfg o f (attempt + 1) st (some msg) (by omega) (by omega)
        dsimp only
        omega
  · intro hc
    rw [hstep, if_pos hc]
    exact ⟨rfl, rfl⟩
  · intro cfg2 o2 st2 now2 msg2 hm h401 hnr hup2
    have ha2 : attemptOnce o2 st2 1 = (st2, .error msg2) := by
      unfold attemptOnce
      rw [hup2]
    have hloop : retryLoop cfg2 o2 cfg2.maxAttempts 1 st2 none = ⟨.err msg2, st2, 1, []⟩ := by
      rw [hm, retryLoop_step cfg2 o2 2 1 st2 none (by omega), ha2]
      dsimp only
      rw [if_pos (Or.inl hnr)]
    exact ⟨congrArg GenResult.outcome hloop, congrArg GenResult.attempts hloop⟩

/-- Witness for C2: a concrete "401 Unauthorized" error is not retried and
the generation fails after exactly one attempt despite a budget of 3. -/
theorem retry_classification_witness :
    (generateFromPrompt cfgAttempts3 oUnauthorized 10000 initialState).outcome =
        .err "401 Unauthorized"
    ∧ (generateFromPrompt cfgAttempts3 oUnauthorized 10000 initialState).attempts = 1
    ∧ ¬ 2 ≤ (retryLoop cfgAttempts3 oUnauthorized 3 1 initialState none).attempts := by
  have h := retry_classification cfgAttempts3 oUnauthorized initialState none 3 1
    "401 Unauthorized" (by decide) (by decide) rfl
  have h3 := h.2.2 cfgAttempts3 oUnauthorized initialState 10000 "401 Unauthorized"
    rfl (by decide) (by decide) rfl
  refine ⟨h3.1, h3.2, ?_⟩
  intro h2
  exact absurd (h.1.mp h2).1 (by decide)

/-- Counterexample to claim C4 as stated: in a concrete run that passes
the busy gate and spends 1500 ms in the pacing wait, the gateway state
during that wait has `isGenerating = true` (the flag is set at line 143,
before `generateFromPrompt` performs the pacing wait of lines 83-89), and
a second request arriving during the wait is rejected by the busy gate
with 429 — the claim asserts the flag is still false there and that such a
request is never rejected. -/
theorem pacing_busy_counterexample :
    ((handleGenerateMusic cfgDefault oSuccess 1500 ⟨1000, 1000, false⟩
        (.str "calm piano")).gen.map fun g => (g.pacingWait, g.stateAtPacing)) =
      some (1500, ⟨1000, 1000, true⟩)
    ∧ statusOf (handleGenerateMusic cfgDefault oSuccess 1600 ⟨1000, 1000, true⟩
        (.str "softer drums")).response = 429
    ∧ (handleGenerateMusic cfgDefault oSuccess 1600 ⟨1000, 1000, true⟩
        (.str "softer drums")).gen = none := by
  refine ⟨?_, rfl, rfl⟩
  decide

/-- Claim C4 amended: the handler performs the busy gate, then marks
`isGenerating = true`, and only then calls `generateFromPrompt`, which
performs the pacing wait; consequently while a request is suspended in the
pacing wait the busy flag is already true, and another request arriving
during that wait is rejected by the busy gate without invoking upstream. -/
theorem busy_true_during_pacing (cfg : Config) (o o2 : GenOracle) (now now2 : Int)
    (st : GatewayState) (s : String) (p2 : PromptValue)
    (hb : st.isGenerating = false) (hs : s ≠ "")
    (h0 : (jsTrim s).length ≠ 0) (h5 : (jsTrim s).length ≤ 500) :
    ∃ g, (handleGenerateMusic cfg o now st (.str s)).gen = some g
      ∧ g.stateAtPacing.isGenerating = true
      ∧ statusOf (handleGenerateMusic cfg o2 now2 g.stateAtPacing p2).response = 429
      ∧ (handleGenerateMusic cfg o2 now2 g.stateAtPacing p2).gen = none := by
  refine ⟨generateFromPrompt cfg o now { st with isGenerating := true }, ?_, rfl, ?_, ?_⟩
  · unfold handleGenerateMusic
    rw [hb]
    simp only [Bool.false_eq_true, if_false]
    rw [if_neg hs, if_neg h0, if_neg (by omega)]
    split
    · rfl
    · rfl
  · have hbusy : (generateFromPrompt cfg o now
        { st with isGenerating := true }).stateAtPacing.isGenerating = true := rfl
    unfold handleGenerateMusic
    rw [hbusy, if_pos rfl]
    rfl
  · have hbusy : (generateFromPrompt cfg o now
        { st with isGenerating := true }).stateAtPacing.isGenerating = true := rfl
    unfold handleGenerateMusic
    rw [hbusy, if_pos rfl]

/-- Witness for C4 amended: concrete run with a 1500 ms pacing wait. -/
theorem busy_true_during_pacing_witness :
    ∃ g, (handleGenerateMusic cfgDefault oSuccess 1500 ⟨1000, 1000, false⟩
        (.str "calm piano")).gen = some g
      ∧ g.stateAtPacing.isGenerating = true
      ∧ statusOf (handleGenerateMusic cfgDefault oSuccess 1600 g.stateAtPacing
          (.str "softer drums")).response = 429
      ∧ (handleGenerateMusic cfgDefault oSuccess 1600 g.stateAtPacing
          (.str "softer drums")).gen = none :=
  busy_true_during_pacing cfgDefault oSuccess oSuccess 1500 1600 ⟨1000, 1000, false⟩
    "calm piano" (.str "softer drums") rfl (by decide) (by decide) (by decide)

/-- Claim C6: the part scan inspects parts in list order; the first part
carrying truthy `audioData.data` or `inlineData.data` supplies the result
unmodified; on the list `[{inlineData:{data:"A"}}, {audioData:{data:"B"}}]`
the result is "A"; and when no part supplies data, the attempt fails with
the NO_AUDIO_IN_RESPONSE error. -/
theorem audio_first_match (l1 l2 : List Part) (p : Part) (d : String) (parts : List Part)
    (cfg : Config) (o : GenOracle) (now : Int) (st : GatewayState) :
    ((∀ q ∈ l1, partValue q = none) → partValue p = some d →
        findAudio (l1 ++ p :: l2) = some d)
    ∧ findAudio [⟨none, some "A"⟩, ⟨some "B", none⟩] = some "A"
    ∧ ((∀ q ∈ parts, partValue q = none) → findAudio parts = none)
    ∧ (1 ≤ cfg.maxAttempts → o.upstream 1 = .ok parts →
        (∀ q ∈ parts, partValue q = none) →
        (generateFromPrompt cfg o now st).outcome = .err "NO_AUDIO_IN_RESPONSE") := by
  refine ⟨?_, by decide, findAudio_eq_none parts, ?_⟩
  · intro hnone hp
    induction l1 with
    | nil =>
      simp only [List.nil_append, findAudio, hp]
    | cons q l1 ih =>
      have hq : partValue q = none := hnone q (List.mem_cons_self q l1)
      simp only [List.cons_append, findAudio, hq]
      exact ih fun r hr => hnone r (List.mem_cons_of_mem q hr)
  · intro hm hup hnone
    have ha : attemptOnce o st 1 =
        ({ st with lastCallAtMs := o.callEndTime 1, lastSuccessAtMs := o.callEndTime 1 },
          .error "NO_AUDIO_IN_RESPONSE") := by
      unfold attemptOnce
      rw [hup]
      dsimp only
      rw [findAudio_eq_none parts hnone]
    obtain ⟨f, hf⟩ : ∃ f, cfg.maxAttempts = f + 1 := ⟨cfg.maxAttempts - 1, by omega⟩
    have hloop : retryLoop cfg o cfg.maxAttempts 1 st none =
        ⟨.err "NO_AUDIO_IN_RESPONSE",
          { st with lastCallAtMs := o.callEndTime 1, lastSuccessAtMs := o.callEndTime 1 },
          1, []⟩ := by
      rw [hf, retryLoop_step cfg o f 1 st none (by omega), ha]
      dsimp only
      rw [if_pos (Or.inl (by decide))]
    exact congrArg GenResult.outcome hloop

/-- Witness for C6: concrete instances of the first-match scan and the
no-audio failure. -/
theorem audio_first_match_witness :
    findAudio ([⟨none, none⟩] ++ ⟨none, some "A"⟩ :: [⟨some "B", none⟩]) = some "A"
    ∧ (generateFromPrompt cfgDefault oNoAudio 10000 initialState).outcome =
        .err "NO_AUDIO_IN_RESPONSE" := by
  have h := audio_first_match [⟨none, none⟩] [⟨some "B", none⟩] ⟨none, some "A"⟩ "A"
    [⟨none, none⟩] cfgDefault oNoAudio 10000 initialState
  exact ⟨h.1 (by decide) rfl, h.2.2.2 (by decide) rfl (by decide)⟩

/-- Claim C8: before a retried attempt the loop suspends for exactly
`round(BASE_DELAY_MS * 2^(attempt-1) * (0.75 + random*0.5))` milliseconds;
for a random draw in `[0,1)` the jitter factor lies in `[0.75, 1.25)`, and
the pre-rounding delay doubles from each attempt to the next. -/
theorem backoff_delay_spec (cfg : Config) (o : GenOracle) (fuel attempt : Nat)
    (st : GatewayState) (le : Option String) (msg : String) (base r : ℚ)
    (hatt : attempt ≤ cfg.maxAttempts) (herr : o.upstream attempt = .error msg)
    (hretry : shouldRetry msg = true) (hlast : attempt ≠ cfg.maxAttempts)
    (hr0 : 0 ≤ r) (hr1 : r < 1) (h1 : 1 ≤ attempt) :
    (retryLoop cfg o (fuel + 1) attempt st le).sleeps =
        backoffDelay cfg.baseDelayMs attempt (o.rand attempt)
          :: (retryLoop cfg o fuel (attempt + 1) st (some msg)).sleeps
    ∧ backoffDelay base attempt r =
        round (base * 2 ^ (attempt - 1) * (3/4 + r * (1/2)))
    ∧ (3/4 : ℚ) ≤ jitterFactor r
    ∧ jitterFactor r < 5/4
    ∧ rawDelay base (attempt + 1) r = 2 * rawDelay base attempt r := by
  have ha : attemptOnce o st attempt = (st, .error msg) := by
    unfold attemptOnce
    rw [herr]
  have hstep := retryLoop_step cfg o fuel attempt st le hatt
  rw [ha] at hstep
  dsimp only at hstep
  have hcond : ¬(shouldRetry msg = false ∨ attempt = cfg.maxAttempts) := by
    rintro (hc | hc)
    · rw [hretry] at hc
      exact absurd hc (by simp)
    · exact hlast hc
  refine ⟨?_, rfl, ?_, ?_, ?_⟩
  · rw [hstep, if_neg hcond]
  · have hm : (0 : ℚ) ≤ r * (1/2) := mul_nonneg hr0 (by norm_num)
    unfold jitterFactor
    linarith
  · have hm : r * (1/2) < 1 * (1/2) :=
      mul_lt_mul_of_pos_right hr1 (by norm_num)
    unfold jitterFactor
    linarith
  · obtain ⟨a, rfl⟩ : ∃ a, attempt = a + 1 := ⟨attempt - 1, by omega⟩
    simp only [rawDelay, Nat.add_sub_cancel]
    rw [pow_succ]
    ring

/-- Witness for C8: a concrete retried 503 error at attempt 1 of 3 with
random draw 1/2. -/
theorem backoff_delay_spec_witness :
    (retryLoop cfgAttempts3 oUnavailable 2 1 initialState none).sleeps =
        backoffDelay cfgAttempts3.baseDelayMs 1 (oUnavailable.rand 1)
          :: (retryLoop cfgAttempts3 oUnavailable 1 2 initialState
              (some "503 Service Unavailable")).sleeps
    ∧ (3/4 : ℚ) ≤ jitterFactor (1/2) ∧ jitterFactor (1/2) < 5/4
    ∧ rawDelay 1200 2 (1/2) = 2 * rawDelay 1200 1 (1/2) := by
  have h := backoff_delay_spec cfgAttempts3 oUnavailable 1 1 initialState none
    "503 Service Unavailable" 1200 (1/2) (by decide) rfl (by decide) (by decide)
    (by norm_num) (by norm_num) (by decide)
  exact ⟨h.1, h.2.2.1, h.2.2.2.1, h.2.2.2.2⟩

/-- Claim C9: when the elapsed time since `lastCallAtMs` is below
`MIN_INTERVAL_MS` the caller is suspended for exactly the remaining
difference (dispatching at `lastCallAtMs + MIN_INTERVAL_MS`), otherwise
not at all; with `MIN_INTERVAL_MS = 2000`, a second call entering pacing
500 ms after a first successful call's completion is dispatched at least
1500 ms after the first call's dispatch. -/
theorem pacing_exact (cfg : Config) (o o2 : GenOracle) (now now2 : Int)
    (st : GatewayState) (parts : List Part) (audio : String) :
    (now - st.lastCallAtMs < cfg.minIntervalMs →
        (generateFromPrompt cfg o now st).pacingWait =
            cfg.minIntervalMs - (now - st.lastCallAtMs)
        ∧ (generateFromPrompt cfg o now st).dispatchTime =
            st.lastCallAtMs + cfg.minIntervalMs)
    ∧ (cfg.minIntervalMs ≤ now - st.lastCallAtMs →
        (generateFromPrompt cfg o now st).pacingWait = 0
        ∧ (generateFromPrompt cfg o now st).dispatchTime = now)
    ∧ (cfg.minIntervalMs = 2000 → 1 ≤ cfg.maxAttempts →
        o.upstream 1 = .ok parts → findAudio parts = some audio →
        (generateFromPrompt cfg o now st).dispatchTime ≤ o.callEndTime 1 →
        now2 = (generateFromPrompt cfg o now st).state.lastCallAtMs + 500 →
        1500 ≤ (generateFromPrompt cfg o2 now2
            (generateFromPrompt cfg o now st).state).dispatchTime
          - (generateFromPrompt cfg o now st).dispatchTime) := by
  have hwait : ∀ (o3 : GenOracle) (n : Int) (s3 : GatewayState),
      (generateFromPrompt cfg o3 n s3).pacingWait =
        (if n - s3.lastCallAtMs < cfg.minIntervalMs then
          cfg.minIntervalMs - (n - s3.lastCallAtMs) else 0)
      ∧ (generateFromPrompt cfg o3 n s3).dispatchTime =
        n + (if n - s3.lastCallAtMs < cfg.minIntervalMs then
          cfg.minIntervalMs - (n - s3.lastCallAtMs) else 0) :=
    fun _ _ _ => ⟨rfl, rfl⟩
  refine ⟨?_, ?_, ?_⟩
  · intro h
    obtain ⟨hw, hd⟩ := hwait o now st
    rw [if_pos h] at hw hd
    rw [hw, hd]
    exact ⟨rfl, by omega⟩
  · intro h
    obtain ⟨hw, hd⟩ := hwait o now st
    rw [if_neg (by omega)] at hw hd
    rw [hw, hd]
    exact ⟨rfl, by omega⟩
  · intro hmin hm hup hfa hdisp hnow2
    have hst := (generate_first_ok cfg o now st parts audio hm hup hfa).2.1
    have hlast : (generateFromPrompt cfg o now st).state.lastCallAtMs =
        o.callEndTime 1 := by
      rw [hst]
    have hd2 := (hwait o2 now2 ((generateFromPrompt cfg o now st).state)).2
    have hlt : now2 - (generateFromPrompt cfg o now st).state.lastCallAtMs <
        cfg.minIntervalMs := by
      omega
    rw [if_pos hlt] at hd2
    rw [hd2]
    omega

/-- Witness for C9: a 500 ms gap against a 2000 ms pacing interval yields
a 1500 ms wait, and the two-call scenario delays the second dispatch by at
least 1500 ms. -/
theorem pacing_exact_witness :
    (generateFromPrompt cfgDefault oSuccess 1500
        (⟨1000, 1000, false⟩ : GatewayState)).pacingWait =
      cfgDefault.minIntervalMs - (1500 - (1000 : Int))
    ∧ 1500 ≤ (generateFromPrompt cfgDefault oSuccess 5500
          (generateFromPrompt cfgDefault oSuccess 3000 initialState).state).dispatchTime
        - (generateFromPrompt cfgDefault oSuccess 3000 initialState).dispatchTime := by
  constructor
  · exact ((pacing_exact cfgDefault oSuccess oSuccess 1500 0 ⟨1000, 1000, false⟩
      [] "").1 (by decide)).1
  · exact (pacing_exact cfgDefault oSuccess oSuccess 3000 5500 initialState
      [⟨some "QUJD", none⟩] "QUJD").2.2 rfl (by decide) rfl (by decide)
      (by decide) (by decide)

/-- Claim C10: within a single part carrying truthy data in both
`audioData.data` and `inlineData.data`, the `audioData` value wins: the
loop body checks `audioData` first and breaks. -/
theorem audioData_precedence (a i : String) (ha : a ≠ "") (_hi : i ≠ "") :
    partValue ⟨some a, some i⟩ = some a
    ∧ findAudio [⟨some a, some i⟩] = some a := by
  have ht : truthyStr (some a) = true := by
    simp [truthyStr, ha]
  constructor
  · simp [partValue, ht]
  · simp [findAudio, partValue, ht]

/-- Witness for C10: a concrete part with both data fields yields the
`audioData` value. -/
theorem audioData_precedence_witness :
    partValue ⟨some "QUJD", some "SU5M"⟩ = some "QUJD"
    ∧ findAudio [⟨some "QUJD", some "SU5M"⟩] = some "QUJD" :=
  audioData_precedence "QUJD" "SU5M" (by decide) (by decide)

end Lyria
